import Mathlib

/-
Shallow embedding of the IFRS claim accrual estimator.

Sources embedded:
  * src/estimator.py — ChainLadder, RiskAdjustment, Discounting, IFRS17Accrual
  * src/app_old.py   — the LDF_PATTERNS development-factor table
  * src/app.py       — calculate_accrual_bracket (bracket classifier)

Monetary amounts and factors are rationals (ℚ); development periods are
integers (ℤ), matching Python ints which may be negative.  Python float
exponentiation `(1 + rate) ** (-years)` is transcendental, so it is
modelled by an abstract function field `fpow` on `Discounting`; every
theorem about `Discounting` below holds for an arbitrary such function.
Python dictionaries are association lists with `List.lookup`; `dict.get`
with a default is `(·.lookup k).getD d`.
-/

namespace IFRSEstimator

/-- Python list slice `xs[i:]` for an integer `i`, including Python's
negative-index semantics: a negative `i` counts from the end of the list,
clamped at the front. -/
def pySliceFrom (xs : List ℚ) (i : ℤ) : List ℚ :=
  let n : ℤ := (xs.length : ℤ)
  let start : ℤ := if i < 0 then max (n + i) 0 else min i n
  xs.drop start.toNat

/-- `ChainLadder.__init__` (src/estimator.py line 15): holds the
claim-type → LDF-list dictionary. -/
structure ChainLadder where
  patterns : List (String × List ℚ)

/-- The pattern lookup inside `get_cumulative_factor` (src/estimator.py
line 35): `self.patterns.get(claim_type, self.patterns.get("Auto", [1.0]))`. -/
def ChainLadder.lookup_pattern (cl : ChainLadder) (claim_type : String) : List ℚ :=
  (cl.patterns.lookup claim_type).getD ((cl.patterns.lookup "Auto").getD [1])

/-- `ChainLadder.get_cumulative_factor` (src/estimator.py lines 24-45).
`period = min(development_period, len(ldfs) - 1)`; if
`period >= len(ldfs) - 1` return `1.0`, else `np.prod(ldfs[period:])`. -/
def ChainLadder.get_cumulative_factor (cl : ChainLadder) (claim_type : String)
    (development_period : ℤ) : ℚ :=
  let ldfs := cl.lookup_pattern claim_type
  let period : ℤ := min development_period ((ldfs.length : ℤ) - 1)
  if (ldfs.length : ℤ) - 1 ≤ period then 1
  else (pySliceFrom ldfs period).prod

/-- The result dictionary of `ChainLadder.estimate_ultimate`
(src/estimator.py lines 63-69). -/
structure UltimateEstimate where
  incurred : ℚ
  development_period : ℤ
  cumulative_factor : ℚ
  ultimate_loss : ℚ
  ibnr : ℚ
  deriving DecidableEq

/-- `ChainLadder.estimate_ultimate` (src/estimator.py lines 47-69). -/
def ChainLadder.estimate_ultimate (cl : ChainLadder) (incurred : ℚ)
    (claim_type : String) (development_period : ℤ) : UltimateEstimate :=
  let cdf := cl.get_cumulative_factor claim_type development_period
  let ultimate := incurred * cdf
  { incurred := incurred
    development_period := development_period
    cumulative_factor := cdf
    ultimate_loss := ultimate
    ibnr := ultimate - incurred }

/-- `RiskAdjustment.__init__` (src/estimator.py line 102): risk-level →
factor dictionary. -/
structure RiskAdjustment where
  factors : List (String × ℚ)

/-- The result dictionary of `RiskAdjustment.calculate`
(src/estimator.py lines 125-130). -/
structure RiskAdjustmentResult where
  ultimate_loss : ℚ
  risk_level : String
  risk_factor : ℚ
  risk_adjustment : ℚ
  deriving DecidableEq

/-- `RiskAdjustment.calculate` (src/estimator.py lines 111-130):
`factor = self.factors.get(risk_level, 0.10)`. -/
def RiskAdjustment.calculate (ra : RiskAdjustment) (ultimate_loss : ℚ)
    (risk_level : String) : RiskAdjustmentResult :=
  let factor := (ra.factors.lookup risk_level).getD (1/10)
  { ultimate_loss := ultimate_loss
    risk_level := risk_level
    risk_factor := factor
    risk_adjustment := ultimate_loss * factor }

/-- `Discounting.__init__` (src/estimator.py line 162) holds the annual
rate.  The field `fpow` models Python float exponentiation `b ** e`
abstractly (it is transcendental, hence not a rational-arithmetic
operation); all theorems below hold for every choice of `fpow`. -/
structure Discounting where
  rate : ℚ
  fpow : ℚ → ℚ → ℚ

/-- The result dictionary of `Discounting.calculate_pv`
(src/estimator.py lines 191-198). -/
structure PresentValueResult where
  future_value : ℚ
  years : ℚ
  discount_rate : ℚ
  discount_factor : ℚ
  present_value : ℚ
  discount_amount : ℚ
  deriving DecidableEq

/-- `Discounting.calculate_pv` (src/estimator.py lines 171-198):
if `years <= 0` the factor is `1.0` and the present value is the future
value; otherwise `discount_factor = (1 + rate) ** (-years)` and
`present_value = future_value * discount_factor`;
`discount_amount = future_value - present_value` in both cases. -/
def Discounting.calculate_pv (d : Discounting) (future_value : ℚ)
    (years : ℚ) : PresentValueResult :=
  let discount_factor : ℚ := if years ≤ 0 then 1 else d.fpow (1 + d.rate) (-years)
  let present_value : ℚ := if years ≤ 0 then future_value else future_value * discount_factor
  { future_value := future_value
    years := years
    discount_rate := d.rate
    discount_factor := discount_factor
    present_value := present_value
    discount_amount := future_value - present_value }

/-- `IFRS17Accrual.__init__` (src/estimator.py lines 233-246). -/
structure IFRS17Accrual where
  chain_ladder : ChainLadder
  risk_adjustment : RiskAdjustment
  discounting : Discounting

/-- The result dictionary of `IFRS17Accrual.calculate_accrual`
(src/estimator.py lines 288-301). -/
structure AccrualResult where
  incurred : ℚ
  paid : ℚ
  ultimate_loss : ℚ
  outstanding_claims : ℚ
  risk_adjustment : ℚ
  pv_ultimate : ℚ
  pv_outstanding : ℚ
  discount_amount : ℚ
  total_accrual : ℚ
  development_period : ℤ
  years_to_settlement : ℚ
  risk_level : String
  deriving DecidableEq

/-- `IFRS17Accrual.calculate_accrual` (src/estimator.py lines 248-301):
the five-step pipeline.  Note step 4 discounts both the ultimate loss and
the outstanding claims, and the returned `discount_amount` is taken from
the PV of the *ultimate* loss. -/
def IFRS17Accrual.calculate_accrual (acc : IFRS17Accrual)
    (incurred paid : ℚ) (claim_type : String) (development_period : ℤ)
    (years_to_settlement : ℚ) (risk_level : String) : AccrualResult :=
  let ultimate_est := acc.chain_ladder.estimate_ultimate incurred claim_type development_period
  let ultimate := ultimate_est.ultimate_loss
  let outstanding := ultimate - paid
  let risk_adj := acc.risk_adjustment.calculate ultimate risk_level
  let pv_ultimate := acc.discounting.calculate_pv ultimate years_to_settlement
  let pv_outstanding := acc.discounting.calculate_pv outstanding years_to_settlement
  let total_accrual := pv_outstanding.present_value + risk_adj.risk_adjustment
  { incurred := incurred
    paid := paid
    ultimate_loss := ultimate
    outstanding_claims := outstanding
    risk_adjustment := risk_adj.risk_adjustment
    pv_ultimate := pv_ultimate.present_value
    pv_outstanding := pv_outstanding.present_value
    discount_amount := pv_ultimate.discount_amount
    total_accrual := total_accrual
    development_period := development_period
    years_to_settlement := years_to_settlement
    risk_level := risk_level }

/-- `LDF_PATTERNS` (src/app_old.py lines 12-18), the synthetic
loss-development-factor table, with the decimal literals as exact
rationals. -/
def LDF_PATTERNS : List (String × List ℚ) :=
  [("Auto", [7/2, 11/5, 3/2, 6/5, 11/10, 21/20, 51/50, 101/100, 201/200, 1]),
   ("Property", [14/5, 19/10, 7/5, 23/20, 27/25, 26/25, 51/50, 101/100, 201/200, 1]),
   ("Liability", [5, 7/2, 5/2, 9/5, 7/5, 6/5, 11/10, 21/20, 51/50, 101/100]),
   ("Health", [2, 3/2, 6/5, 11/10, 21/20, 51/50, 101/100, 201/200, 1, 1]),
   ("Workers Comp", [9/2, 3, 11/5, 8/5, 13/10, 23/20, 27/25, 26/25, 51/50, 101/100])]

/-- A `ChainLadder` built over the repository's `LDF_PATTERNS` table. -/
def ldfChainLadder : ChainLadder := ⟨LDF_PATTERNS⟩

/-- `stage_weights` (src/app.py lines 30-36). -/
def stage_weights : List (String × ℤ) :=
  [("Reported", 1), ("Under Investigation", 2), ("Evaluated", 3),
   ("Settlement Negotiation", 4), ("Closed", 5)]

/-- `severity_weights` (src/app.py lines 41-46). -/
def severity_weights : List (String × ℤ) :=
  [("Minor", 1), ("Moderate", 2), ("Severe", 3), ("Catastrophic", 4)]

/-- Warning emitted when `investigation_duration > 12` (src/app.py line 53). -/
def extendedInvestigationWarning : String :=
  "⚠️ Extended investigation period (>12 months) increases uncertainty"

/-- Warning emitted when `6 < investigation_duration <= 12` (src/app.py line 57). -/
def moderateInvestigationWarning : String :=
  "⚠️ Moderate investigation period (6-12 months)"

/-- Warning emitted when `ibnr_flag == "Yes"` (src/app.py line 63). -/
def ibnrWarning : String :=
  "⚠️ IBNR claim - higher uncertainty in estimation"

/-- Warning emitted when `severity_bracket == "Catastrophic"` (src/app.py line 74). -/
def catastrophicWarning : String :=
  "⚠️ Catastrophic severity - consult senior actuarial team"

/-- The bracket-selection if-chain of `calculate_accrual_bracket`
(src/app.py lines 80-89), as a function of the accumulated accrual level. -/
def bracket_of_level (accrual_level : ℤ) : String :=
  if accrual_level ≤ 3 then "Band A (Low Reserve)"
  else if accrual_level ≤ 5 then "Band B (Moderate Reserve)"
  else if accrual_level ≤ 7 then "Band C (Elevated Reserve)"
  else if accrual_level ≤ 9 then "Band D (High Reserve)"
  else "Band E (Maximum Reserve)"

/-- The observable outputs of `calculate_accrual_bracket` (src/app.py
line 97) plus the warning list and accumulated score it builds on the
way (the free-text explanation is pure string rendering of these same
values by `generate_explanation` and carries no further logic). -/
structure BracketResult where
  bracket : String
  warnings : List String
  uncertainty_score : ℚ
  accrual_level : ℤ
  deriving DecidableEq

/-- `calculate_accrual_bracket` (src/app.py lines 9-97).  The sequential
Python mutations are written as one contribution per rule, summed in the
source order: stage weight + severity weight, then the investigation
duration rule, the IBNR rule (the Python test is `ibnr_flag == "Yes"`),
the stage-based and severity-based uncertainty additions, and finally
`uncertainty_score = min(uncertainty_score, 1.0)`. -/
def calculate_accrual_bracket (claim_stage severity_bracket : String)
    (investigation_duration : ℚ) (ibnr_flag : String) : BracketResult :=
  let base_level : ℤ :=
    ((stage_weights.lookup claim_stage).getD 1)
      + ((severity_weights.lookup severity_bracket).getD 1)
  let dur_level : ℤ :=
    if 12 < investigation_duration then 2
    else if 6 < investigation_duration then 1
    else 0
  let dur_warnings : List String :=
    if 12 < investigation_duration then [extendedInvestigationWarning]
    else if 6 < investigation_duration then [moderateInvestigationWarning]
    else []
  let dur_uncertainty : ℚ :=
    if 12 < investigation_duration then 1/4
    else if 6 < investigation_duration then 3/20
    else 0
  let ibnr_level : ℤ := if ibnr_flag = "Yes" then 2 else 0
  let ibnr_warnings : List String := if ibnr_flag = "Yes" then [ibnrWarning] else []
  let ibnr_uncertainty : ℚ := if ibnr_flag = "Yes" then 3/10 else 0
  let stage_uncertainty : ℚ :=
    if claim_stage = "Reported" then 1/5
    else if claim_stage = "Under Investigation" then 3/20
    else 0
  let cat_uncertainty : ℚ := if severity_bracket = "Catastrophic" then 1/5 else 0
  let cat_warnings : List String :=
    if severity_bracket = "Catastrophic" then [catastrophicWarning] else []
  let accrual_level : ℤ := base_level + dur_level + ibnr_level
  let uncertainty_score : ℚ :=
    min (dur_uncertainty + ibnr_uncertainty + stage_uncertainty + cat_uncertainty) 1
  { bracket := bracket_of_level accrual_level
    warnings := dur_warnings ++ ibnr_warnings ++ cat_warnings
    uncertainty_score := uncertainty_score
    accrual_level := accrual_level }

/-- Spec-side bracket map ("Map accumulated score to bracket: ≤3→A,
4-5→B, 6-7→C, 8-9→D, ≥10→E"), written as the five contiguous,
exhaustive, non-overlapping integer ranges the spec describes, to be
compared with the source-side `bracket_of_level`. -/
def bracket_spec_ranges (s : ℤ) : String :=
  if s ≤ 3 then "Band A (Low Reserve)"
  else if 4 ≤ s ∧ s ≤ 5 then "Band B (Moderate Reserve)"
  else if 6 ≤ s ∧ s ≤ 7 then "Band C (Elevated Reserve)"
  else if 8 ≤ s ∧ s ≤ 9 then "Band D (High Reserve)"
  else "Band E (Maximum Reserve)"

/-- Helper: whenever the (possibly clamped) development period reaches the
last index of the looked-up pattern, `get_cumulative_factor` returns `1`. -/
lemma ChainLadder.factor_one_of_fully_developed (cl : ChainLadder)
    (claim_type : String) (development_period : ℤ)
    (h : ((cl.lookup_pattern claim_type).length : ℤ) - 1 ≤ development_period) :
    cl.get_cumulative_factor claim_type development_period = 1 := by
  simp only [ChainLadder.get_cumulative_factor]
  rw [if_pos (le_min h le_rfl)]

/-- C1: for every claim snapshot, the `total_accrual` field returned by
`IFRS17Accrual.calculate_accrual` equals the present value of the
outstanding claims (`Discounting.calculate_pv` applied to the ultimate
loss minus `paid`, over `years_to_settlement`) plus the risk adjustment
(`RiskAdjustment.calculate` applied to the ultimate loss). -/
theorem total_accrual_eq_pv_outstanding_add_risk_adjustment
    (acc : IFRS17Accrual) (incurred paid : ℚ) (claim_type : String)
    (development_period : ℤ) (years_to_settlement : ℚ) (risk_level : String) :
    (acc.calculate_accrual incurred paid claim_type development_period
        years_to_settlement risk_level).total_accrual
      = (acc.discounting.calculate_pv
            ((acc.chain_ladder.estimate_ultimate incurred claim_type
                development_period).ultimate_loss - paid)
            years_to_settlement).present_value
        + (acc.risk_adjustment.calculate
            (acc.chain_ladder.estimate_ultimate incurred claim_type
                development_period).ultimate_loss risk_level).risk_adjustment := rfl

/-- C2 counterexample: for `claim_type = "Auto"`, `incurred = 50000`,
`development_period = 0`, the cumulative factor is more than 2 away from
the 14.34 the claim states, and the ultimate loss is more than 100000
away from the 716800 the claim states — the claimed approximate values
are wrong under any reasonable tolerance. -/
theorem auto_example_far_from_claimed_values :
    2 < |ldfChainLadder.get_cumulative_factor "Auto" 0 - 1434/100|
    ∧ 100000 < |(ldfChainLadder.estimate_ultimate 50000 "Auto" 0).ultimate_loss - 716800| := by
  constructor <;>
    norm_num [ChainLadder.get_cumulative_factor, ChainLadder.estimate_ultimate,
      ChainLadder.lookup_pattern, LDF_PATTERNS, ldfChainLadder, pySliceFrom, List.lookup,
      lt_abs]

/-- C2 amended: for `claim_type = "Auto"`, `incurred = 50000`,
`development_period = 0`, `get_cumulative_factor` returns the product of
all ten Auto LDFs, which is exactly 16.5742094133 (not ≈ 14.34), and
`estimate_ultimate` returns `ultimate_loss` exactly 828710.470665
(not ≈ 716800). -/
theorem auto_example_factor_and_ultimate_exact :
    ldfChainLadder.get_cumulative_factor "Auto" 0 = (ldfChainLadder.lookup_pattern "Auto").prod
    ∧ ldfChainLadder.get_cumulative_factor "Auto" 0 = 165742094133/10000000000
    ∧ (ldfChainLadder.estimate_ultimate 50000 "Auto" 0).ultimate_loss = 165742094133/200000 := by
  refine ⟨?_, ?_, ?_⟩ <;>
    norm_num [ChainLadder.get_cumulative_factor, ChainLadder.estimate_ultimate,
      ChainLadder.lookup_pattern, LDF_PATTERNS, ldfChainLadder, pySliceFrom, List.lookup]

/-- C3: `calculate_accrual_bracket` maps the accumulated accrual level
score to the bracket label through `bracket_of_level`, which agrees with
the spec's five contiguous, exhaustive, non-overlapping integer ranges
(≤3 → Band A, 4-5 → Band B, 6-7 → Band C, 8-9 → Band D, ≥10 → Band E),
with the exact boundary values at 3, 4, 7, 8 and 11. -/
theorem bracket_of_level_matches_spec_ranges :
    (∀ claim_stage severity_bracket : String, ∀ d : ℚ, ∀ ibnr_flag : String,
        (calculate_accrual_bracket claim_stage severity_bracket d ibnr_flag).bracket
          = bracket_of_level
              (calculate_accrual_bracket claim_stage severity_bracket d ibnr_flag).accrual_level)
    ∧ (∀ s : ℤ, bracket_of_level s = bracket_spec_ranges s)
    ∧ bracket_of_level 3 = "Band A (Low Reserve)"
    ∧ bracket_of_level 4 = "Band B (Moderate Reserve)"
    ∧ bracket_of_level 7 = "Band C (Elevated Reserve)"
    ∧ bracket_of_level 8 = "Band D (High Reserve)"
    ∧ bracket_of_level 11 = "Band E (Maximum Reserve)" := by
  refine ⟨fun _ _ _ _ => rfl, fun s => ?_, rfl, rfl, rfl, rfl, rfl⟩
  unfold bracket_of_level bracket_spec_ranges
  split_ifs <;> first | rfl | omega

/-- C4 counterexample: for `claim_stage = "Reported"`,
`severity_bracket = "Catastrophic"`, `investigation_duration = 40`,
`ibnr_flag = "Yes"`, the uncertainty score is 0.95, not the 1.0 the
claim states. -/
theorem pathological_uncertainty_not_one :
    (calculate_accrual_bracket "Reported" "Catastrophic" 40 "Yes").uncertainty_score ≠ 1 := by
  norm_num [calculate_accrual_bracket, stage_weights, severity_weights, List.lookup, min_def]

/-- C4 amended: for the pathological input combination
`claim_stage = "Reported"`, `investigation_duration = 40`,
`ibnr_flag = "Yes"`, `severity_bracket = "Catastrophic"`, the uncertainty
score is exactly 0.95 (the sum 0.25 + 0.30 + 0.20 + 0.20) and stays
within the [0, 1] cap; the clamp at 1.0 is not reached. -/
theorem pathological_uncertainty_eq_095 :
    (calculate_accrual_bracket "Reported" "Catastrophic" 40 "Yes").uncertainty_score = 19/20
    ∧ (calculate_accrual_bracket "Reported" "Catastrophic" 40 "Yes").uncertainty_score ≤ 1 := by
  constructor <;>
    norm_num [calculate_accrual_bracket, stage_weights, severity_weights, List.lookup, min_def]

/-- C5: for every input combination (any claim stage string, any severity
string, any investigation duration, any IBNR flag), the uncertainty score
returned by `calculate_accrual_bracket` lies in the closed interval
[0, 1]. -/
theorem uncertainty_score_mem_unit_interval
    (claim_stage severity_bracket : String) (investigation_duration : ℚ)
    (ibnr_flag : String) :
    0 ≤ (calculate_accrual_bracket claim_stage severity_bracket
          investigation_duration ibnr_flag).uncertainty_score
    ∧ (calculate_accrual_bracket claim_stage severity_bracket
          investigation_duration ibnr_flag).uncertainty_score ≤ 1 := by
  simp only [calculate_accrual_bracket]
  constructor
  · refine le_min ?_ zero_le_one
    split_ifs <;> norm_num
  · exact min_le_right _ _

/-- C6: for every claim type and every development period greater than or
equal to the last index of the looked-up pattern, `get_cumulative_factor`
returns exactly 1. -/
theorem cumulative_factor_fully_developed (cl : ChainLadder)
    (claim_type : String) (development_period : ℤ)
    (h : ((cl.lookup_pattern claim_type).length : ℤ) - 1 ≤ development_period) :
    cl.get_cumulative_factor claim_type development_period = 1 :=
  cl.factor_one_of_fully_developed claim_type development_period h

/-- C6 witness: the Auto pattern has ten entries, and at development
period 9 (its last index) the factor is 1. -/
theorem cumulative_factor_fully_developed_witness :
    ((ldfChainLadder.lookup_pattern "Auto").length : ℤ) - 1 ≤ 9
    ∧ ldfChainLadder.get_cumulative_factor "Auto" 9 = 1 :=
  ⟨by decide, cumulative_factor_fully_developed ldfChainLadder "Auto" 9 (by decide)⟩

/-- C7 counterexample: at `development_period = -1` the Auto factor is 1
(Python's negative slice `ldfs[-1:]` keeps only the last entry), which
differs from the factor at the clamped period 0 — so negative periods
are not clamped to 0 as the claim states. -/
theorem negative_period_not_clamped_to_zero :
    ldfChainLadder.get_cumulative_factor "Auto" (-1) = 1
    ∧ ldfChainLadder.get_cumulative_factor "Auto" (-1)
        ≠ ldfChainLadder.get_cumulative_factor "Auto" 0 := by
  constructor <;>
    norm_num [ChainLadder.get_cumulative_factor, ChainLadder.lookup_pattern, LDF_PATTERNS,
      ldfChainLadder, pySliceFrom, List.lookup, show Int.toNat 9 = 9 from rfl]

/-- C7 amended: `get_cumulative_factor` clamps the development period
only from above; for every non-negative development period the returned
factor equals the factor for the period clamped into
[0, len(pattern) - 1].  (A negative development period is not clamped to
0 — it selects a suffix from the end of the pattern, per Python negative
slicing, as the counterexample shows.) -/
theorem cumulative_factor_clamped_for_nonneg_periods (cl : ChainLadder)
    (claim_type : String) (development_period : ℤ) (h : 0 ≤ development_period) :
    cl.get_cumulative_factor claim_type development_period
      = cl.get_cumulative_factor claim_type
          (max 0 (min development_period
            (((cl.lookup_pattern claim_type).length : ℤ) - 1))) := by
  rcases le_or_lt development_period (((cl.lookup_pattern claim_type).length : ℤ) - 1)
    with h2 | h2
  · rw [min_eq_left h2, max_eq_right h]
  · rw [min_eq_right h2.le,
      cl.factor_one_of_fully_developed claim_type development_period h2.le,
      cl.factor_one_of_fully_developed claim_type _ (le_max_right 0 _)]

/-- C7 amended witness: at development period 15 on the Auto pattern the
factor equals the factor at the clamped period `max 0 (min 15 9) = 9`. -/
theorem cumulative_factor_clamped_witness :
    (0 : ℤ) ≤ 15
    ∧ ldfChainLadder.get_cumulative_factor "Auto" 15
        = ldfChainLadder.get_cumulative_factor "Auto"
            (max 0 (min 15 (((ldfChainLadder.lookup_pattern "Auto").length : ℤ) - 1))) :=
  ⟨by decide, cumulative_factor_clamped_for_nonneg_periods ldfChainLadder "Auto" 15 (by decide)⟩

/-- C8: relative to the same other inputs, setting the IBNR flag adds
exactly 2 to the accrual level score, emits exactly one IBNR warning,
and adds 0.30 to the uncertainty score (the pre-clamp sum never exceeds
0.95, so the clamp at 1.0 is inactive and the 0.30 shift is visible on
the returned score); with the flag off, none of these effects occur. -/
theorem ibnr_flag_effects (claim_stage severity_bracket : String)
    (investigation_duration : ℚ) (ibnr_flag : String) (h : ibnr_flag ≠ "Yes") :
    (calculate_accrual_bracket claim_stage severity_bracket investigation_duration
        "Yes").accrual_level
      = (calculate_accrual_bracket claim_stage severity_bracket investigation_duration
          ibnr_flag).accrual_level + 2
    ∧ (calculate_accrual_bracket claim_stage severity_bracket investigation_duration
        "Yes").warnings.count ibnrWarning = 1
    ∧ (calculate_accrual_bracket claim_stage severity_bracket investigation_duration
        ibnr_flag).warnings.count ibnrWarning = 0
    ∧ (calculate_accrual_bracket claim_stage severity_bracket investigation_duration
        "Yes").uncertainty_score
      = (calculate_accrual_bracket claim_stage severity_bracket investigation_duration
          ibnr_flag).uncertainty_score + 3/10 := by
  simp only [calculate_accrual_bracket, h, if_false, eq_self_iff_true, if_true]
  refine ⟨by omega, ?_, ?_, ?_⟩ <;>
    split_ifs <;>
      norm_num [List.count_append, List.count_cons, List.count_nil, min_def] <;>
        decide

/-- C8 witness: instantiated at claim stage "Evaluated", severity
"Minor", duration 3, flag off as "No". -/
theorem ibnr_flag_effects_witness :
    (calculate_accrual_bracket "Evaluated" "Minor" 3 "Yes").accrual_level
      = (calculate_accrual_bracket "Evaluated" "Minor" 3 "No").accrual_level + 2
    ∧ (calculate_accrual_bracket "Evaluated" "Minor" 3 "Yes").warnings.count ibnrWarning = 1
    ∧ (calculate_accrual_bracket "Evaluated" "Minor" 3 "No").warnings.count ibnrWarning = 0
    ∧ (calculate_accrual_bracket "Evaluated" "Minor" 3 "Yes").uncertainty_score
      = (calculate_accrual_bracket "Evaluated" "Minor" 3 "No").uncertainty_score + 3/10 :=
  ibnr_flag_effects "Evaluated" "Minor" 3 "No" (by decide)

/-- C9: for every claim-type key absent from the development-pattern
table (with "Auto" present), `estimate_ultimate` returns output identical
to an explicit "Auto" request with the same numeric inputs. -/
theorem unknown_claim_type_falls_back_to_auto (cl : ChainLadder)
    (claim_type : String) (h : cl.patterns.lookup claim_type = none)
    (hA : (cl.patterns.lookup "Auto").isSome = true)
    (incurred : ℚ) (development_period : ℤ) :
    cl.estimate_ultimate incurred claim_type development_period
      = cl.estimate_ultimate incurred "Auto" development_period := by
  obtain ⟨p, hp⟩ := Option.isSome_iff_exists.mp hA
  have hpat : cl.lookup_pattern claim_type = cl.lookup_pattern "Auto" := by
    unfold ChainLadder.lookup_pattern
    rw [h, hp]
    rfl
  have hf : cl.get_cumulative_factor claim_type development_period
      = cl.get_cumulative_factor "Auto" development_period := by
    simp only [ChainLadder.get_cumulative_factor]
    rw [hpat]
  simp only [ChainLadder.estimate_ultimate]
  rw [hf]

/-- C9 witness: "Marine" is absent from `LDF_PATTERNS` while "Auto" is
present, and the estimate for "Marine" equals the estimate for "Auto". -/
theorem unknown_claim_type_falls_back_to_auto_witness :
    ldfChainLadder.patterns.lookup "Marine" = none
    ∧ (ldfChainLadder.patterns.lookup "Auto").isSome = true
    ∧ ldfChainLadder.estimate_ultimate 50000 "Marine" 0
        = ldfChainLadder.estimate_ultimate 50000 "Auto" 0 :=
  ⟨by decide, by decide,
    unknown_claim_type_falls_back_to_auto ldfChainLadder "Marine" (by decide) (by decide)
      50000 0⟩

/-- C10: the `discount_amount` field of `calculate_accrual` is the
discount on the ultimate loss — the ultimate loss minus the present
value of the ultimate loss — not the discount on the outstanding
claims. -/
theorem discount_amount_is_discount_on_ultimate
    (acc : IFRS17Accrual) (incurred paid : ℚ) (claim_type : String)
    (development_period : ℤ) (years_to_settlement : ℚ) (risk_level : String) :
    (acc.calculate_accrual incurred paid claim_type development_period
        years_to_settlement risk_level).discount_amount
      = (acc.chain_ladder.estimate_ultimate incurred claim_type
            development_period).ultimate_loss
        - (acc.discounting.calculate_pv
            (acc.chain_ladder.estimate_ultimate incurred claim_type
                development_period).ultimate_loss
            years_to_settlement).present_value := rfl

end IFRSEstimator
